import Mathlib

/-!
Shallow embedding of the Blessed_Autoforward_Bot core logic, taken from
src/bot.py (the primary revision) and src/main.py (the secondary revision).

Time is measured in seconds as `Nat`.  Python's reset test
`(datetime.now() - user['last_reset']).days >= 1` holds exactly when at
least 86400 seconds have elapsed: `timedelta.days` floors, so for a reset
time not in the future the test is `86400 ≤ now - last_reset`, and with
truncated `Nat` subtraction both sides also agree (both false) when
`now < last_reset`.

The in-memory dicts `users_data`, `rules_data` and `transactions_data` are
modelled as association lists read through `alookup`; `amap` models the
in-place mutation `d[k] = v` of a key already present, and `ainsert`
models a general dict assignment (overwrite if present, insert otherwise).
User fields not read or written by any verified operation (display name,
command rate-limiter fields, creation time) are omitted from the record.
-/

namespace AutoforwardBot

/-- Association-list lookup, modelling a Python dict read. -/
def alookup {κ α : Type} [DecidableEq κ] : List (κ × α) → κ → Option α
  | [], _ => none
  | p :: rest, k => if p.1 = k then some p.2 else alookup rest k

/-- In-place overwrite of the entries holding key `k`, modelling the Python
mutation `d[k] = v` for a key that is already present. -/
def amap {κ α : Type} [DecidableEq κ] (l : List (κ × α)) (k : κ) (v : α) :
    List (κ × α) :=
  l.map (fun p => if p.1 = k then (k, v) else p)

/-- Python dict assignment `d[k] = v`: overwrite when present, insert
otherwise. -/
def ainsert {κ α : Type} [DecidableEq κ] (l : List (κ × α)) (k : κ) (v : α) :
    List (κ × α) :=
  if (alookup l k).isSome then amap l k v else (k, v) :: l

theorem alookup_amap_self {κ α : Type} [DecidableEq κ] :
    ∀ (l : List (κ × α)) (k : κ) (v u : α),
      alookup l k = some u → alookup (amap l k v) k = some v
  | [], k, v, u, h => by simp [alookup] at h
  | p :: rest, k, v, u, h => by
      by_cases hk : p.1 = k
      · simp [alookup, amap, hk]
      · simp only [alookup, amap, List.map_cons, if_neg hk] at h ⊢
        exact alookup_amap_self rest k v u h

theorem length_amap {κ α : Type} [DecidableEq κ] (l : List (κ × α)) (k : κ)
    (v : α) : (amap l k v).length = l.length :=
  List.length_map _ _

theorem ainsert_fresh {κ α : Type} [DecidableEq κ] (l : List (κ × α)) (k : κ)
    (v : α) (h : alookup l k = none) : ainsert l k v = (k, v) :: l := by
  simp [ainsert, h]

/-- Plan types of the bot: `plan_type == 'daily'` is tested explicitly and
everything else is treated as monthly, mirroring the `else` branches in
src/bot.py. -/
inductive PlanType
  | monthly
  | daily
deriving DecidableEq, Repr

/-- Plan duration in seconds: `timedelta(days=30)` for monthly and
`timedelta(days=1)` for daily (src/bot.py `activate_premium`, lines
364-367). -/
def planDuration : PlanType → Nat
  | .monthly => 30 * 86400
  | .daily => 86400

/-- Subscription and quota fields of a user record (src/bot.py
`get_or_create_user`, lines 237-248). -/
structure User where
  is_premium : Bool
  subscription_end : Option Nat
  daily_messages : Nat
  last_reset : Nat
deriving DecidableEq, Repr

abbrev UStore := List (Nat × User)

/-- Active-premium predicate, inlined in src/bot.py line 275:
`user['is_premium'] and user['subscription_end'] and
user['subscription_end'] > datetime.now()`.  A `datetime` object is always
truthy in Python, so the middle conjunct is exactly a `None` check. -/
def isActivePremium (u : User) (now : Nat) : Bool :=
  u.is_premium &&
    (match u.subscription_end with
     | some e => decide (now < e)
     | none => false)

/-- Quota check, src/bot.py `check_message_limit` (lines 262-283): unknown
user denies with no mutation; otherwise the 24h window is reset first, then
an active-premium user is allowed without touching the counter, a counter
at or above 50 denies, and otherwise the counter is incremented and the
call is allowed.  `last_reset` is a `datetime` for every created user, so
its Python truthiness guard is always satisfied. -/
def check_message_limit (users : UStore) (uid : Nat) (now : Nat) :
    Bool × UStore :=
  match alookup users uid with
  | none => (false, users)
  | some u0 =>
    let u := if 86400 ≤ now - u0.last_reset
      then { u0 with daily_messages := 0, last_reset := now } else u0
    if isActivePremium u now then (true, amap users uid u)
    else if 50 ≤ u.daily_messages then (false, amap users uid u)
    else (true, amap users uid { u with daily_messages := u.daily_messages + 1 })

/-- Quota check of the src/main.py revision (`check_message_limit`, lines
111-140).  For an unknown user `cur.fetchone()` returns `None` and the very
next line `user['last_reset']` raises an unhandled `TypeError`; that crash
is modelled as `none`.  For an existing user the logic coincides with the
src/bot.py revision (the SQL reset and increment act on the same row the
local logic reads). -/
def check_message_limit_main (users : UStore) (uid : Nat) (now : Nat) :
    Option (Bool × UStore) :=
  match alookup users uid with
  | none => none
  | some u0 =>
    let u := if 86400 ≤ now - u0.last_reset
      then { u0 with daily_messages := 0, last_reset := now } else u0
    some (if isActivePremium u now then (true, amap users uid u)
      else if 50 ≤ u.daily_messages then (false, amap users uid u)
      else (true, amap users uid { u with daily_messages := u.daily_messages + 1 }))

/-- Premium activation, src/bot.py `activate_premium` (lines 359-372): only
acts when the user exists; sets `is_premium` and overwrites
`subscription_end` with `now + planDuration plan`. -/
def activate_premium (users : UStore) (uid : Nat) (plan : PlanType)
    (now : Nat) : UStore :=
  match alookup users uid with
  | none => users
  | some u =>
      amap users uid
        { u with is_premium := true,
                 subscription_end := some (now + planDuration plan) }

/-- Claim C5: `activate_premium` sets `is_premium := true` and overwrites
(never extends) `subscription_end` to activation time plus exactly 30 days
for the monthly plan and 1 day for the daily plan; consequently a monthly
activation at `t` is active premium at `t + 29` days and no longer active
at `t + 31` days. -/
theorem activate_premium_spec (users : UStore) (uid : Nat) (u : User)
    (plan : PlanType) (t : Nat) (h : alookup users uid = some u) :
    alookup (activate_premium users uid plan t) uid =
      some { u with is_premium := true,
                    subscription_end := some (t + planDuration plan) } ∧
    isActivePremium
      { u with is_premium := true,
               subscription_end := some (t + planDuration PlanType.monthly) }
      (t + 29 * 86400) = true ∧
    isActivePremium
      { u with is_premium := true,
               subscription_end := some (t + planDuration PlanType.monthly) }
      (t + 31 * 86400) = false := by
  refine ⟨?_, ?_, ?_⟩
  · unfold activate_premium
    rw [h]
    exact alookup_amap_self users uid _ u h
  · simp only [isActivePremium, planDuration, Bool.true_and, decide_eq_true_eq]
    omega
  · simp only [isActivePremium, planDuration, Bool.true_and,
      decide_eq_false_iff_not]
    omega

theorem activate_premium_spec_witness :
    alookup (activate_premium [(1, ⟨false, none, 3, 0⟩)] 1 PlanType.monthly 10) 1 =
      some { is_premium := true, subscription_end := some (10 + planDuration PlanType.monthly),
             daily_messages := 3, last_reset := 0 } ∧
    isActivePremium
      { is_premium := true, subscription_end := some (10 + planDuration PlanType.monthly),
        daily_messages := 3, last_reset := (0 : Nat) } (10 + 29 * 86400) = true ∧
    isActivePremium
      { is_premium := true, subscription_end := some (10 + planDuration PlanType.monthly),
        daily_messages := 3, last_reset := (0 : Nat) } (10 + 31 * 86400) = false :=
  activate_premium_spec [(1, ⟨false, none, 3, 0⟩)] 1 ⟨false, none, 3, 0⟩
    PlanType.monthly 10 rfl

/-- Claim C7: in the src/bot.py revision an unknown user id is denied
(fail closed) with the store untouched, while the src/main.py revision
crashes on the same input (the `None` row is subscripted), modelled as
`none`. -/
theorem check_message_limit_unknown (users : UStore) (uid : Nat) (now : Nat)
    (h : alookup users uid = none) :
    check_message_limit users uid now = (false, users) ∧
    check_message_limit_main users uid now = none := by
  constructor
  · unfold check_message_limit
    rw [h]
  · unfold check_message_limit_main
    rw [h]

theorem check_message_limit_unknown_witness :
    check_message_limit ([] : UStore) 1 0 = (false, []) ∧
    check_message_limit_main ([] : UStore) 1 0 = none :=
  check_message_limit_unknown [] 1 0 rfl

/-- Forwarding rule record (src/bot.py `dest_chat_received`, lines
710-720). -/
structure ForwardRule where
  user_id : Nat
  source_chat_id : Int
  source_chat_title : String
  dest_chat_id : Int
  dest_chat_title : String
  is_active : Bool
  messages_forwarded : Nat
deriving DecidableEq, Repr

abbrev RStore := List (String × ForwardRule)

/-- Active rules owned by `uid`, src/bot.py `get_user_rules` (lines
382-389). -/
def get_user_rules (rules : RStore) (uid : Nat) : RStore :=
  rules.filter (fun p => p.2.user_id == uid && p.2.is_active)

/-- Active rules whose source is `src`, src/bot.py
`get_active_rules_by_source` (lines 374-380). -/
def get_active_rules_by_source (rules : RStore) (src : Int) : RStore :=
  rules.filter (fun p => p.2.source_chat_id == src && p.2.is_active)

/-- Free-plan gate of src/bot.py `add_forward_start` (lines 497-518):
`true` means the rule-creation flow proceeds, `false` means it stops with
the free-plan-limit message.  The test is on the raw `is_premium` flag
(`if not user['is_premium']`), not on the active-premium predicate.
src/main.py `add_forward_command` (lines 347-368) has the same shape. -/
def add_forward_gate (u : User) (rules : RStore) (uid : Nat) : Bool :=
  if !u.is_premium then
    if 1 ≤ (get_user_rules rules uid).length then false else true
  else true

/-- Modelled from the spec for comparison only: the gate as the spec's
words demand it ("this predicate — not the raw `isPremium` flag — must be
used everywhere premium status gates behavior"), i.e. the same free-plan
limit but keyed on `isActivePremium` at the time of the call. -/
def add_forward_gate_active (u : User) (rules : RStore) (uid : Nat)
    (now : Nat) : Bool :=
  if !(isActivePremium u now) then
    if 1 ≤ (get_user_rules rules uid).length then false else true
  else true

inductive DeleteOutcome
  | deleted
  | notOwner
  | notFound
deriving DecidableEq, Repr

/-- Rule deletion, src/bot.py `delete_forward_handler` (lines 817-848):
unknown rule id reports "Rule not found"; a requester other than the owner
reports "You don't own this rule" and mutates nothing; the owner soft
deletes by flipping `is_active` to `False`.  The entry itself is never
removed from `rules_data`. -/
def delete_forward_handler (rules : RStore) (rid : String)
    (requester : Nat) : DeleteOutcome × RStore :=
  match alookup rules rid with
  | none => (.notFound, rules)
  | some r =>
    if r.user_id = requester then
      (.deleted, amap rules rid { r with is_active := false })
    else (.notOwner, rules)

/-- Claim C8: `delete_forward_handler` flips `is_active` only for the
owner, answers `notOwner` with an unchanged store for any other requester,
answers `notFound` for an unknown rule id, and in every case keeps the
store's length (rules are never physically removed). -/
theorem delete_forward_handler_spec (rules : RStore) (rid : String)
    (requester : Nat) :
    (delete_forward_handler rules rid requester).2.length = rules.length ∧
    (alookup rules rid = none →
      delete_forward_handler rules rid requester =
        (DeleteOutcome.notFound, rules)) ∧
    (∀ r, alookup rules rid = some r → r.user_id ≠ requester →
      delete_forward_handler rules rid requester =
        (DeleteOutcome.notOwner, rules)) ∧
    (∀ r, alookup rules rid = some r → r.user_id = requester →
      (delete_forward_handler rules rid requester).1 =
        DeleteOutcome.deleted ∧
      alookup (delete_forward_handler rules rid requester).2 rid =
        some { r with is_active := false }) := by
  refine ⟨?_, ?_, ?_, ?_⟩
  · unfold delete_forward_handler
    cases h : alookup rules rid with
    | none => rfl
    | some r =>
        by_cases ho : r.user_id = requester
        · simp [ho, length_amap]
        · simp [ho]
  · intro h
    unfold delete_forward_handler
    rw [h]
  · intro r h hne
    unfold delete_forward_handler
    rw [h]
    simp [hne]
  · intro r h heq
    unfold delete_forward_handler
    rw [h]
    simp only [heq, if_pos rfl]
    exact ⟨rfl, alookup_amap_self rules rid _ r h⟩

theorem delete_forward_handler_spec_witness :
    delete_forward_handler
      [("r1", ⟨1, -100, "S", -200, "D", true, 7⟩)] "r1" 2 =
      (DeleteOutcome.notOwner, [("r1", ⟨1, -100, "S", -200, "D", true, 7⟩)]) ∧
    (delete_forward_handler
      [("r1", ⟨1, -100, "S", -200, "D", true, 7⟩)] "r1" 1).1 =
      DeleteOutcome.deleted ∧
    alookup (delete_forward_handler
      [("r1", ⟨1, -100, "S", -200, "D", true, 7⟩)] "r1" 1).2 "r1" =
      some ⟨1, -100, "S", -200, "D", false, 7⟩ ∧
    delete_forward_handler
      [("r1", ⟨1, -100, "S", -200, "D", true, 7⟩)] "r2" 1 =
      (DeleteOutcome.notFound, [("r1", ⟨1, -100, "S", -200, "D", true, 7⟩)]) :=
  ⟨(delete_forward_handler_spec
      [("r1", ⟨1, -100, "S", -200, "D", true, 7⟩)] "r1" 2).2.2.1
      ⟨1, -100, "S", -200, "D", true, 7⟩ rfl (by decide),
   ((delete_forward_handler_spec
      [("r1", ⟨1, -100, "S", -200, "D", true, 7⟩)] "r1" 1).2.2.2
      ⟨1, -100, "S", -200, "D", true, 7⟩ rfl rfl).1,
   ((delete_forward_handler_spec
      [("r1", ⟨1, -100, "S", -200, "D", true, 7⟩)] "r1" 1).2.2.2
      ⟨1, -100, "S", -200, "D", true, 7⟩ rfl rfl).2,
   (delete_forward_handler_spec
      [("r1", ⟨1, -100, "S", -200, "D", true, 7⟩)] "r2" 1).2.1 rfl⟩

/-- Concrete user for the C3 counterexample: the `is_premium` flag is still
`true` but the subscription ended at time 100. -/
def lapsedUser : User :=
  { is_premium := true, subscription_end := some 100,
    daily_messages := 0, last_reset := 0 }

/-- Concrete single active rule owned by user 1, for counterexamples. -/
def ruleOfUser1 : ForwardRule :=
  ⟨1, -100, "S", -200, "D", true, 0⟩

/-- Claim C3 counterexample: at time 200 user `lapsedUser` is not active
premium and owns one active rule, yet `add_forward_gate` (the code) lets
rule creation proceed because it checks only the raw `is_premium` flag,
while the gate the spec describes (`add_forward_gate_active`) would block
it.  So the expired-but-flagged user is not subject to the free-tier
one-rule limit, contradicting the claim. -/
theorem add_forward_gate_raw_flag_cex :
    isActivePremium lapsedUser 200 = false ∧
    1 ≤ (get_user_rules [("r1", ruleOfUser1)] 1).length ∧
    add_forward_gate lapsedUser [("r1", ruleOfUser1)] 1 = true ∧
    add_forward_gate_active lapsedUser [("r1", ruleOfUser1)] 1 200 = false := by
  decide

/-- Claim C3 amended: the rule-creation free-tier limit is gated on the raw
`is_premium` flag alone — the gate allows exactly when `is_premium` is set
or the user has no active rule, independent of `subscription_end` and the
current time; hence a user whose subscription has expired but whose flag
is still `true` bypasses the one-active-rule limit. -/
theorem add_forward_gate_spec (u : User) (rules : RStore) (uid : Nat) :
    add_forward_gate u rules uid =
      (u.is_premium || decide ((get_user_rules rules uid).length = 0)) := by
  cases hp : u.is_premium with
  | true => simp [add_forward_gate, hp]
  | false =>
      by_cases hl : 1 ≤ (get_user_rules rules uid).length
      · simp only [add_forward_gate, hp, Bool.not_false, if_pos hl, if_pos trivial]
        have : ¬ (get_user_rules rules uid).length = 0 := by omega
        simp [this]
      · simp only [add_forward_gate, hp, Bool.not_false, if_neg hl, if_pos trivial]
        have : (get_user_rules rules uid).length = 0 := by omega
        simp [this]

/-- Concrete user for the C6 counterexample: active premium far into the
future, five counted messages, and a quota window that started more than
24h ago. -/
def premiumStaleWindowUser : User :=
  { is_premium := true, subscription_end := some 10000000,
    daily_messages := 5, last_reset := 0 }

/-- Claim C6 counterexample: user 1 is active premium at time 172800 (two
days after the window start), the check returns `true`, yet
`daily_messages` is changed from 5 to 0 by the window reset — the claim
that the counter is left unchanged for any counter value is false. -/
theorem check_message_limit_premium_reset_cex :
    isActivePremium premiumStaleWindowUser 172800 = true ∧
    (alookup [(1, premiumStaleWindowUser)] 1).map User.daily_messages =
      some 5 ∧
    (check_message_limit [(1, premiumStaleWindowUser)] 1 172800).1 = true ∧
    (alookup (check_message_limit [(1, premiumStaleWindowUser)] 1 172800).2
      1).map User.daily_messages = some 0 := by
  decide

/-- Claim C6 amended: for an active-premium user the check always returns
`true` and never increments the counter — `daily_messages` is unchanged
while the 24h window is live and is reset to 0 (with `last_reset := now`)
when the window has elapsed, before the premium test. -/
theorem check_message_limit_premium (users : UStore) (uid : Nat) (u : User)
    (now : Nat) (h : alookup users uid = some u)
    (hp : isActivePremium u now = true) :
    (check_message_limit users uid now).1 = true ∧
    (alookup (check_message_limit users uid now).2 uid).map
        User.daily_messages =
      some (if 86400 ≤ now - u.last_reset then 0 else u.daily_messages) := by
  have key : check_message_limit users uid now =
      (true, amap users uid (if 86400 ≤ now - u.last_reset
        then { u with daily_messages := 0, last_reset := now } else u)) := by
    unfold check_message_limit
    rw [h]
    by_cases hw : 86400 ≤ now - u.last_reset
    · have hp' : isActivePremium
          { u with daily_messages := 0, last_reset := now } now = true := hp
      simp [hw, hp']
    · simp [hw, hp]
  rw [key]
  refine ⟨rfl, ?_⟩
  rw [alookup_amap_self users uid _ u h]
  by_cases hw : 86400 ≤ now - u.last_reset
  · simp [hw]
  · simp [hw]

theorem check_message_limit_premium_witness :
    (check_message_limit [(1, premiumStaleWindowUser)] 1 5).1 = true ∧
    (alookup (check_message_limit [(1, premiumStaleWindowUser)] 1 5).2
        1).map User.daily_messages =
      some (if 86400 ≤ 5 - premiumStaleWindowUser.last_reset then 0
            else premiumStaleWindowUser.daily_messages) :=
  check_message_limit_premium [(1, premiumStaleWindowUser)] 1
    premiumStaleWindowUser 5 rfl (by decide)

inductive TxStatus
  | pending
  | success
deriving DecidableEq, Repr

/-- Transaction record (src/bot.py `generate_payment_link`, lines
325-334). -/
structure Transaction where
  user_id : Nat
  reference : String
  amount : Nat
  plan_type : PlanType
  status : TxStatus
  created_at : Nat
  payment_date : Option Nat
deriving DecidableEq, Repr

abbrev TStore := List (String × Transaction)

/-- Reference tag of a plan (src/bot.py lines 292-299). -/
def planTag : PlanType → String
  | .daily => "DAILY"
  | .monthly => "MONTHLY"

/-- Plan price in kobo (src/bot.py lines 40-41). -/
def planAmount : PlanType → Nat
  | .daily => 20000
  | .monthly => 300000

/-- Outcome of the Paystack initialize call as src/bot.py observes it:
`ok url` models an HTTP 200 response carrying `authorization_url`; `err`
models any non-200 status or a raised exception — src/bot.py wraps the
call in try/except (with a 10s timeout), so both failure modes make its
`generate_payment_link` reach `return None, None, None`.  This collapse is
specific to src/bot.py; the src/main.py revision, which catches nothing,
is modelled separately by `PaystackHttp` below. -/
inductive PaystackInit
  | ok (authUrl : String)
  | err
deriving DecidableEq, Repr

/-- Payment-link issuance, src/bot.py `generate_payment_link` (lines
285-341): the reference is `{tag}_{user_id}_{timestamp}`; on provider
success one pending transaction row is written, on failure nothing is
persisted and `None` is returned. -/
def generate_payment_link (txns : TStore) (uid : Nat) (plan : PlanType)
    (now : Nat) (resp : PaystackInit) :
    Option (String × String × Nat) × TStore :=
  let reference := planTag plan ++ "_" ++ toString uid ++ "_" ++ toString now
  match resp with
  | .ok url =>
      (some (url, reference, planAmount plan),
       ainsert txns reference
         { user_id := uid, reference := reference, amount := planAmount plan,
           plan_type := plan, status := .pending, created_at := now,
           payment_date := none })
  | .err => (none, txns)

/-- Outcome of the raw `requests.post` call in src/main.py
`generate_payment_link`, which unlike src/bot.py wraps it in no try/except
and passes no timeout: `ok url` is an HTTP 200 response carrying
`authorization_url`, `httpErr` is an HTTP response with a non-200 status
(the function then falls through to `return None, None`), and `raised` is
a transport exception, which propagates out of the function unhandled. -/
inductive PaystackHttp
  | ok (authUrl : String)
  | httpErr
  | raised
deriving DecidableEq, Repr

/-- Payment-link issuance of the src/main.py revision
(`generate_payment_link`, lines 142-180): a single monthly plan with tag
"SUB" and amount 150000.  The first component is the function's outcome:
`some (some (url, reference))` on success, `some none` for the graceful
`return None, None` on a non-200 response, and `none` for a raised
transport exception, which nothing catches — the function never reaches an
error return on that path.  The second component is the state of the
`transactions` table afterwards: the exception occurs inside
`requests.post`, before the `INSERT`, so the table is unchanged on both
failure paths; the row is inserted only on HTTP 200 (the table there has
no plan column, the only plan being monthly). -/
def generate_payment_link_main (txns : TStore) (uid : Nat) (now : Nat)
    (resp : PaystackHttp) : Option (Option (String × String)) × TStore :=
  let reference := "SUB_" ++ toString uid ++ "_" ++ toString now
  match resp with
  | .ok url =>
      (some (some (url, reference)),
       ainsert txns reference
         { user_id := uid, reference := reference, amount := 150000,
           plan_type := .monthly, status := .pending, created_at := now,
           payment_date := none })
  | .httpErr => (some none, txns)
  | .raised => (none, txns)

/-- Claim C9: in src/bot.py the claim holds in full — on provider success
exactly one pending transaction row with reference
`{tag}_{userId}_{timestamp}` is persisted (the store becomes that row
consed onto the old store, so its length grows by one), and on any
provider failure (non-200 or caught exception) `None` is returned with the
store unchanged.  In src/main.py the success and non-200 paths behave the
same way (tag "SUB"), but a raised transport exception is not turned into
an error result: nothing catches it, so the call crashes (`none`) and the
claimed error return never materialises, though the table is still
unchanged. -/
theorem generate_payment_link_spec (txns : TStore) (uid : Nat)
    (plan : PlanType) (now : Nat) (url : String)
    (h1 : alookup txns
      (planTag plan ++ "_" ++ toString uid ++ "_" ++ toString now) = none)
    (h2 : alookup txns ("SUB_" ++ toString uid ++ "_" ++ toString now) = none) :
    generate_payment_link txns uid plan now (.ok url) =
      (some (url, planTag plan ++ "_" ++ toString uid ++ "_" ++ toString now,
             planAmount plan),
       (planTag plan ++ "_" ++ toString uid ++ "_" ++ toString now,
        { user_id := uid,
          reference := planTag plan ++ "_" ++ toString uid ++ "_" ++ toString now,
          amount := planAmount plan, plan_type := plan, status := .pending,
          created_at := now, payment_date := none }) :: txns) ∧
    (generate_payment_link txns uid plan now (.ok url)).2.length =
      txns.length + 1 ∧
    generate_payment_link txns uid plan now .err = (none, txns) ∧
    generate_payment_link_main txns uid now (.ok url) =
      (some (some (url, "SUB_" ++ toString uid ++ "_" ++ toString now)),
       ("SUB_" ++ toString uid ++ "_" ++ toString now,
        { user_id := uid,
          reference := "SUB_" ++ toString uid ++ "_" ++ toString now,
          amount := 150000, plan_type := .monthly, status := .pending,
          created_at := now, payment_date := none }) :: txns) ∧
    generate_payment_link_main txns uid now .httpErr = (some none, txns) ∧
    generate_payment_link_main txns uid now .raised = (none, txns) := by
  have e1 := ainsert_fresh txns
    (planTag plan ++ "_" ++ toString uid ++ "_" ++ toString now)
    ({ user_id := uid,
       reference := planTag plan ++ "_" ++ toString uid ++ "_" ++ toString now,
       amount := planAmount plan, plan_type := plan, status := .pending,
       created_at := now, payment_date := none } : Transaction) h1
  have e2 := ainsert_fresh txns
    ("SUB_" ++ toString uid ++ "_" ++ toString now)
    ({ user_id := uid,
       reference := "SUB_" ++ toString uid ++ "_" ++ toString now,
       amount := 150000, plan_type := .monthly, status := .pending,
       created_at := now, payment_date := none } : Transaction) h2
  refine ⟨?_, ?_, rfl, ?_, rfl, rfl⟩
  · simp only [generate_payment_link, e1]
  · simp only [generate_payment_link, e1, List.length_cons]
  · simp only [generate_payment_link_main, e2]

theorem generate_payment_link_spec_witness :
    generate_payment_link ([] : TStore) 7 PlanType.monthly 5 (.ok "u") =
      (some ("u", "MONTHLY_7_5", 300000),
       [("MONTHLY_7_5",
         { user_id := 7, reference := "MONTHLY_7_5", amount := 300000,
           plan_type := .monthly, status := .pending, created_at := 5,
           payment_date := none })]) ∧
    generate_payment_link ([] : TStore) 7 PlanType.monthly 5 .err =
      (none, []) ∧
    generate_payment_link_main ([] : TStore) 7 5 .raised = (none, []) :=
  ⟨(generate_payment_link_spec [] 7 PlanType.monthly 5 "u" rfl rfl).1,
   (generate_payment_link_spec [] 7 PlanType.monthly 5 "u" rfl rfl).2.2.1,
   (generate_payment_link_spec [] 7 PlanType.monthly 5 "u" rfl rfl).2.2.2.2.2⟩

/-- Manual payment verification, src/bot.py `button_callback`, branch
`verify_…` (lines 1140-1178) combined with `verify_payment` (lines
343-357): `prov` is the Paystack verify answer — `some payer` when the
provider reports status "success" with payer-metadata user id `payer`,
`none` otherwise.  On a match the handler looks up the plan (defaulting to
monthly, `transactions_data.get(reference, {}).get('plan_type',
'monthly')`), unconditionally re-activates premium, and stamps the
transaction `success` with a fresh `payment_date`.  The returned `Bool` is
whether the success message is shown. -/
def verify_button_callback (users : UStore) (txns : TStore)
    (reference : String) (requester : Nat) (prov : Option Nat) (now : Nat) :
    Bool × UStore × TStore :=
  match prov with
  | some payer =>
    if payer = requester then
      let plan := match alookup txns reference with
        | some tx => tx.plan_type
        | none => PlanType.monthly
      let users2 := activate_premium users requester plan now
      let txns2 := match alookup txns reference with
        | some tx =>
            amap txns reference
              { tx with status := .success, payment_date := some now }
        | none => txns
      (true, users2, txns2)
    else (false, users, txns)
  | none => (false, users, txns)

/-- Webhook payment path, src/bot.py `paystack_webhook` (lines 154-198),
`charge.success` branch: if the reference is known, premium is
unconditionally re-activated for the transaction's user and the
transaction is stamped `success` with a fresh `payment_date`; the
transaction's previous status is never consulted. -/
def paystack_webhook (users : UStore) (txns : TStore) (reference : String)
    (now : Nat) : UStore × TStore :=
  match alookup txns reference with
  | none => (users, txns)
  | some tx =>
      (activate_premium users tx.user_id tx.plan_type now,
       amap txns reference
         { tx with status := .success, payment_date := some now })

/-- Concrete free user for the C2 counterexample. -/
def freeUser0 : User :=
  { is_premium := false, subscription_end := none,
    daily_messages := 0, last_reset := 0 }

/-- Concrete pending monthly transaction of user 1 for the C2
counterexample. -/
def pendingTx1 : Transaction :=
  { user_id := 1, reference := "MONTHLY_1_0", amount := 300000,
    plan_type := .monthly, status := .pending, created_at := 0,
    payment_date := none }

/-- Claim C2 counterexample: verifying reference "MONTHLY_1_0" succeeds at
time 100 giving `subscription_end = 100 + 30 days = 2592100`; verifying the
same reference again at time 86500 (one day later) overwrites
`subscription_end` to `86500 + 30 days = 2678500 > 2592100` and re-stamps
`payment_date` from 100 to 86500 — the second verify does move
`subscriptionEnd` forward and does not yield the same transaction, so the
claim is false at this input. -/
theorem verify_double_extend_cex :
    (alookup (verify_button_callback [(1, freeUser0)]
        [("MONTHLY_1_0", pendingTx1)] "MONTHLY_1_0" 1 (some 1) 100).2.1
      1).map User.subscription_end = some (some 2592100) ∧
    (alookup (verify_button_callback
        (verify_button_callback [(1, freeUser0)]
          [("MONTHLY_1_0", pendingTx1)] "MONTHLY_1_0" 1 (some 1) 100).2.1
        (verify_button_callback [(1, freeUser0)]
          [("MONTHLY_1_0", pendingTx1)] "MONTHLY_1_0" 1 (some 1) 100).2.2
        "MONTHLY_1_0" 1 (some 1) 86500).2.1
      1).map User.subscription_end = some (some 2678500) ∧
    2592100 < 2678500 ∧
    (alookup (verify_button_callback [(1, freeUser0)]
        [("MONTHLY_1_0", pendingTx1)] "MONTHLY_1_0" 1 (some 1) 100).2.2
      "MONTHLY_1_0").map Transaction.payment_date = some (some 100) ∧
    (alookup (verify_button_callback
        (verify_button_callback [(1, freeUser0)]
          [("MONTHLY_1_0", pendingTx1)] "MONTHLY_1_0" 1 (some 1) 100).2.1
        (verify_button_callback [(1, freeUser0)]
          [("MONTHLY_1_0", pendingTx1)] "MONTHLY_1_0" 1 (some 1) 100).2.2
        "MONTHLY_1_0" 1 (some 1) 86500).2.2
      "MONTHLY_1_0").map Transaction.payment_date = some (some 86500) := by
  decide

/-- Claim C2 amended: whenever the provider reports success for the
requesting user — in particular on a second verify of an
already-`success` transaction — both the pull path and the webhook path
re-run activation, overwriting `subscription_end` to the current time plus
the plan duration (so a strictly later second call strictly moves it
forward) and re-stamping the transaction's `payment_date` to the current
time; re-verification is a re-activation, not a no-op. -/
theorem verify_reactivates (users : UStore) (txns : TStore)
    (reference : String) (requester : Nat) (u : User) (tx : Transaction)
    (now : Nat) (hu : alookup users requester = some u)
    (ht : alookup txns reference = some tx)
    (hty : tx.user_id = requester) :
    ((verify_button_callback users txns reference requester
        (some requester) now).1 = true ∧
     (alookup (verify_button_callback users txns reference requester
        (some requester) now).2.1 requester).map User.subscription_end =
       some (some (now + planDuration tx.plan_type)) ∧
     alookup (verify_button_callback users txns reference requester
        (some requester) now).2.2 reference =
       some { tx with status := .success, payment_date := some now }) ∧
    ((alookup (paystack_webhook users txns reference now).1
        requester).map User.subscription_end =
       some (some (now + planDuration tx.plan_type)) ∧
     alookup (paystack_webhook users txns reference now).2 reference =
       some { tx with status := .success, payment_date := some now }) := by
  have hact : ∀ plan : PlanType,
      alookup (activate_premium users requester plan now) requester =
        some { u with is_premium := true,
                      subscription_end := some (now + planDuration plan) } := by
    intro plan
    unfold activate_premium
    rw [hu]
    exact alookup_amap_self users requester _ u hu
  have keyv : verify_button_callback users txns reference requester
      (some requester) now =
      (true, activate_premium users requester tx.plan_type now,
       amap txns reference
         { tx with status := .success, payment_date := some now }) := by
    unfold verify_button_callback
    simp [ht]
  have keyw : paystack_webhook users txns reference now =
      (activate_premium users tx.user_id tx.plan_type now,
       amap txns reference
         { tx with status := .success, payment_date := some now }) := by
    unfold paystack_webhook
    rw [ht]
  rw [keyv, keyw, hty]
  refine ⟨⟨rfl, ?_, ?_⟩, ?_, ?_⟩
  · rw [hact tx.plan_type]
    rfl
  · exact alookup_amap_self txns reference _ tx ht
  · rw [hact tx.plan_type]
    rfl
  · exact alookup_amap_self txns reference _ tx ht

theorem verify_reactivates_witness :
    ((verify_button_callback [(1, freeUser0)] [("MONTHLY_1_0", pendingTx1)]
        "MONTHLY_1_0" 1 (some 1) 100).1 = true ∧
     (alookup (verify_button_callback [(1, freeUser0)]
        [("MONTHLY_1_0", pendingTx1)] "MONTHLY_1_0" 1 (some 1) 100).2.1
        1).map User.subscription_end =
       some (some (100 + planDuration pendingTx1.plan_type)) ∧
     alookup (verify_button_callback [(1, freeUser0)]
        [("MONTHLY_1_0", pendingTx1)] "MONTHLY_1_0" 1 (some 1) 100).2.2
        "MONTHLY_1_0" =
       some { pendingTx1 with status := .success, payment_date := some 100 }) ∧
    ((alookup (paystack_webhook [(1, freeUser0)]
        [("MONTHLY_1_0", pendingTx1)] "MONTHLY_1_0" 100).1
        1).map User.subscription_end =
       some (some (100 + planDuration pendingTx1.plan_type)) ∧
     alookup (paystack_webhook [(1, freeUser0)]
        [("MONTHLY_1_0", pendingTx1)] "MONTHLY_1_0" 100).2 "MONTHLY_1_0" =
       some { pendingTx1 with status := .success, payment_date := some 100 }) :=
  verify_reactivates [(1, freeUser0)] [("MONTHLY_1_0", pendingTx1)]
    "MONTHLY_1_0" 1 freeUser0 pendingTx1 100 rfl rfl rfl

/-- State of a free-plan user after `j` allowed-or-denied quota calls in a
window that started at `t0`: the counter climbs to 50 and then holds (the
quota check itself never pushes it past 50). -/
def freeUserAt (u0 : User) (t0 j : Nat) : User :=
  { u0 with daily_messages := min j 50, last_reset := t0 }

/-- Sequence of `check_message_limit` calls for one user, threading the
store and collecting the returned `Bool`s in order. -/
def runQuota (uid : Nat) : UStore → List Nat → List Bool × UStore
  | users, [] => ([], users)
  | users, t :: ts =>
    let r := check_message_limit users uid t
    let rest := runQuota uid r.2 ts
    (r.1 :: rest.1, rest.2)

theorem freeUserAt_succ_of_le (u0 : User) (t0 j : Nat) (h : 50 ≤ j) :
    freeUserAt u0 t0 (j + 1) = freeUserAt u0 t0 j := by
  unfold freeUserAt
  have : min (j + 1) 50 = min j 50 := by omega
  rw [this]

theorem check_step_free (s : UStore) (uid : Nat) (u0 : User) (t0 j t : Nat)
    (h : alookup s uid = some (freeUserAt u0 t0 j))
    (h1 : t0 ≤ t) (h2 : t < t0 + 86400)
    (hp : isActivePremium u0 t = false) :
    check_message_limit s uid t =
      (decide (j < 50), amap s uid (freeUserAt u0 t0 (j + 1))) := by
  obtain ⟨pr, se, dm, lr⟩ := u0
  unfold check_message_limit
  rw [h]
  unfold freeUserAt
  dsimp only
  have hw : ¬ 86400 ≤ t - t0 := by omega
  have hp2 : isActivePremium ⟨pr, se, min j 50, t0⟩ t = false := hp
  by_cases hj : j < 50
  · have hd50 : ¬ 50 ≤ min j 50 := by omega
    have hsucc : min j 50 + 1 = min (j + 1) 50 := by omega
    simp [hw, hp2, hd50, hj, hsucc]
  · have hd50 : 50 ≤ min j 50 := by omega
    have hsucc : min (j + 1) 50 = min j 50 := by omega
    simp [hw, hp2, hd50, hj, hsucc]

theorem runQuota_inv (uid : Nat) (u0 : User) (t0 : Nat) :
    ∀ (ts : List Nat) (s : UStore) (j : Nat),
      alookup s uid = some (freeUserAt u0 t0 j) →
      (∀ t ∈ ts, t0 ≤ t ∧ t < t0 + 86400 ∧ isActivePremium u0 t = false) →
      (runQuota uid s ts).1 =
        (List.range ts.length).map (fun i => decide (j + i < 50)) ∧
      alookup (runQuota uid s ts).2 uid =
        some (freeUserAt u0 t0 (j + ts.length))
  | [], s, j, h, _ => by
      simp [runQuota, h]
  | t :: ts, s, j, h, hts => by
      obtain ⟨h1, h2, hp⟩ := hts t (List.mem_cons_self _ _)
      have hstep := check_step_free s uid u0 t0 j t h h1 h2 hp
      have h' : alookup (amap s uid (freeUserAt u0 t0 (j + 1))) uid =
          some (freeUserAt u0 t0 (j + 1)) :=
        alookup_amap_self s uid _ _ h
      have IH := runQuota_inv uid u0 t0 ts
        (amap s uid (freeUserAt u0 t0 (j + 1))) (j + 1) h'
        (fun t' ht' => hts t' (List.mem_cons_of_mem _ ht'))
      have hfun : ∀ i : Nat, decide (j + 1 + i < 50) =
          decide (j + (i + 1) < 50) := by
        intro i
        rw [decide_eq_decide]
        omega
      constructor
      · simp only [runQuota, hstep, IH.1, List.length_cons,
          List.range_succ_eq_map, List.map_cons, List.map_map]
        refine congrArg₂ _ ?_ ?_
        · rw [decide_eq_decide]
          omega
        · refine List.map_congr_left ?_
          intro i _
          simp only [Function.comp_apply]
          rw [decide_eq_decide]
          omega
      · simp only [runQuota, hstep]
        rw [IH.2]
        have : j + 1 + ts.length = j + (ts.length + 1) := by omega
        rw [this]
        rfl

/-- Claim C1: for a user on the free plan (not active premium at any call
time), starting from a fresh window (`daily_messages = 0`,
`last_reset = t0`) and calling `check_message_limit` at times inside the
24h window, call `k` returns `true` for `k ≤ 50` and `false` from the 51st
call on; each allowed call increments the counter by one (after the first
`k` calls the counter is `min k 50`); and the first call at a time
`t' ≥ t0 + 86400` resets the window and returns `true` with the counter at
1 and `last_reset = t'`. -/
theorem quota_window_spec (s : UStore) (uid : Nat) (u0 : User) (t0 : Nat)
    (ts : List Nat) (h0 : alookup s uid = some u0)
    (hd : u0.daily_messages = 0) (hl : u0.last_reset = t0)
    (hts : ∀ t ∈ ts, t0 ≤ t ∧ t < t0 + 86400 ∧
      isActivePremium u0 t = false) :
    (runQuota uid s ts).1 =
      (List.range ts.length).map (fun i => decide (i < 50)) ∧
    (∀ k, (alookup (runQuota uid s (ts.take k)).2 uid).map
        User.daily_messages = some (min (min k ts.length) 50)) ∧
    (∀ t', t0 + 86400 ≤ t' → isActivePremium u0 t' = false →
      (check_message_limit (runQuota uid s ts).2 uid t').1 = true ∧
      alookup (check_message_limit (runQuota uid s ts).2 uid t').2 uid =
        some { u0 with daily_messages := 1, last_reset := t' }) := by
  obtain ⟨pr, se, dm, lr⟩ := u0
  dsimp only at hd hl
  subst hd
  have hl2 := hl.symm
  subst hl2
  have hu0 : freeUserAt ⟨pr, se, 0, t0⟩ t0 0 = ⟨pr, se, 0, t0⟩ := by
    unfold freeUserAt
    dsimp only
    norm_num
  have h0' : alookup s uid = some (freeUserAt ⟨pr, se, 0, t0⟩ t0 0) := by
    rw [hu0]
    exact h0
  have main := runQuota_inv uid ⟨pr, se, 0, t0⟩ t0 ts s 0 h0' hts
  refine ⟨?_, ?_, ?_⟩
  · rw [main.1]
    refine List.map_congr_left ?_
    intro i _
    rw [decide_eq_decide]
    omega
  · intro k
    have htk : ∀ t ∈ ts.take k, t0 ≤ t ∧ t < t0 + 86400 ∧
        isActivePremium ⟨pr, se, 0, t0⟩ t = false :=
      fun t ht => hts t (List.mem_of_mem_take ht)
    have mk := runQuota_inv uid ⟨pr, se, 0, t0⟩ t0 (ts.take k) s 0 h0' htk
    rw [mk.2]
    simp [freeUserAt, List.length_take, Nat.zero_add]
  · intro t' hge hp'
    have hfin := main.2
    unfold check_message_limit
    rw [hfin]
    unfold freeUserAt
    dsimp only
    have hw : 86400 ≤ t' - t0 := by omega
    have hp2 : isActivePremium ⟨pr, se, 0, t'⟩ t' = false := hp'
    have h50 : ¬ (50 : Nat) ≤ 0 := by omega
    have hlook := alookup_amap_self (runQuota uid s ts).2 uid
      (⟨pr, se, 0 + 1, t'⟩ : User) _ hfin
    refine ⟨?_, ?_⟩
    · simp [hw, hp2, h50]
    · simp only [hw, if_true, hp2, Bool.false_eq_true, if_false, h50]
      rw [hlook]

theorem quota_window_spec_witness :
    (runQuota 1 [(1, freeUser0)] (List.replicate 51 10)).1 =
      (List.range 51).map (fun i => decide (i < 50)) ∧
    (alookup (runQuota 1 [(1, freeUser0)]
        ((List.replicate 51 10).take 50)).2 1).map User.daily_messages =
      some (min (min 50 51) 50) ∧
    (check_message_limit
      (runQuota 1 [(1, freeUser0)] (List.replicate 51 10)).2 1 90000).1 =
      true ∧
    alookup (check_message_limit
        (runQuota 1 [(1, freeUser0)] (List.replicate 51 10)).2 1 90000).2 1 =
      some { freeUser0 with daily_messages := 1, last_reset := 90000 } := by
  have h := quota_window_spec [(1, freeUser0)] 1 freeUser0 0
    (List.replicate 51 10) rfl rfl rfl
    (by
      intro t ht
      have : t = 10 := List.eq_of_mem_replicate ht
      subst this
      refine ⟨by omega, by omega, by decide⟩)
  exact ⟨h.1, h.2.1 50, (h.2.2 90000 (by omega) (by decide)).1,
    (h.2.2 90000 (by omega) (by decide)).2⟩

/-- Dispatcher state: the user store, the rule store, and the number of
quota-exhausted notifications sent so far. -/
structure DispatchState where
  users : UStore
  rules : RStore
  notifications : Nat
deriving DecidableEq, Repr

/-- The `messages_forwarded` increment of src/bot.py
`forward_message_handler` (lines 963-967): the stored rule is re-fetched
from `rules_data` and its counter incremented, only after the relay call
returned without raising. -/
def record_forward (rules : RStore) (rid : String) : RStore :=
  match alookup rules rid with
  | none => rules
  | some r =>
      amap rules rid { r with messages_forwarded := r.messages_forwarded + 1 }

/-- Processing of one matched rule inside src/bot.py
`forward_message_handler` (lines 935-990).  `relayOk` is the outcome of
`message.forward(rule['dest_chat_id'])` and `notifyOk` the outcome of the
quota-notification `send_message`; the counter bump to 51 (`# Prevent
spam`) sits after the send inside the same `try`, so it happens only when
the notification goes out. -/
def handle_rule (st : DispatchState) (rid : String) (r : ForwardRule)
    (now : Nat) (relayOk notifyOk : Bool) : DispatchState :=
  let res := check_message_limit st.users r.user_id now
  if res.1 then
    if relayOk then
      { st with users := res.2, rules := record_forward st.rules rid }
    else
      { st with users := res.2 }
  else
    match alookup res.2 r.user_id with
    | some u =>
        if u.daily_messages = 50 then
          if notifyOk then
            { st with
              users := amap res.2 r.user_id
                { u with daily_messages := u.daily_messages + 1 },
              notifications := st.notifications + 1 }
          else { st with users := res.2 }
        else { st with users := res.2 }
    | none => { st with users := res.2 }

/-- Dispatcher entry point, src/bot.py `forward_message_handler` (lines
923-991), for one inbound
message from chat `src`: the matched active rules are collected up front
(as copies) and then processed one by one against the evolving stores; no
early return, one rule's denial does not stop the others. -/
def forward_message_handler (st : DispatchState) (src : Int) (now : Nat)
    (relayOk notifyOk : Bool) : DispatchState :=
  (get_active_rules_by_source st.rules src).foldl
    (fun acc p => handle_rule acc p.1 p.2 now relayOk notifyOk) st

/-- Dispatcher run over a list of inbound-message times, every message
arriving in chat `src`, every relay and notification succeeding. -/
def runDispatch (src : Int) : DispatchState → List Nat → DispatchState
  | st, [] => st
  | st, t :: ts => runDispatch src (forward_message_handler st src t true true) ts

/-- Scenario state for the end-to-end free-user run: one user `uid`, one
active rule `rid` owned by `uid`, after `j` inbound messages in the window
that started at `t0`.  The user's counter climbs to 50 and is then bumped
once more to 51 by the notification path; the rule's forward counter stops
at 50; exactly one notification is sent, on message 51. -/
def scenState (pr : Bool) (se : Option Nat) (uid : Nat) (src dst : Int)
    (rid : String) (t0 j : Nat) : DispatchState :=
  { users := [(uid, ⟨pr, se, min j 51, t0⟩)],
    rules := [(rid, ⟨uid, src, "S", dst, "D", true, min j 50⟩)],
    notifications := if 51 ≤ j then 1 else 0 }

theorem dispatch_step (pr : Bool) (se : Option Nat) (uid : Nat)
    (src dst : Int) (rid : String) (t0 j t : Nat)
    (h1 : t0 ≤ t) (h2 : t < t0 + 86400)
    (hp : isActivePremium ⟨pr, se, min j 51, t0⟩ t = false) :
    forward_message_handler (scenState pr se uid src dst rid t0 j) src t
      true true = scenState pr se uid src dst rid t0 (j + 1) := by
  have hmatch : get_active_rules_by_source
      (scenState pr se uid src dst rid t0 j).rules src =
      [(rid, ⟨uid, src, "S", dst, "D", true, min j 50⟩)] := by
    unfold get_active_rules_by_source scenState
    simp
  unfold forward_message_handler
  rw [hmatch]
  simp only [List.foldl_cons, List.foldl_nil]
  unfold handle_rule
  have hcheck : check_message_limit
      (scenState pr se uid src dst rid t0 j).users uid t =
      (decide (min j 51 < 50),
       amap (scenState pr se uid src dst rid t0 j).users uid
         (if min j 51 < 50 then ⟨pr, se, min j 51 + 1, t0⟩
          else ⟨pr, se, min j 51, t0⟩)) := by
    unfold scenState check_message_limit alookup
    simp only [if_pos rfl]
    have hw : ¬ 86400 ≤ t - t0 := by omega
    by_cases hj : min j 51 < 50
    · have : ¬ 50 ≤ min j 51 := by omega
      simp [hw, hp, this, hj]
    · have : 50 ≤ min j 51 := by omega
      simp [hw, hp, this, hj]
  by_cases hj : j < 50
  · have hj' : min j 51 < 50 := by omega
    simp only [hcheck, if_pos hj', decide_eq_true_eq]
    rw [if_pos trivial]
    have hrec : record_forward (scenState pr se uid src dst rid t0 j).rules rid =
        [(rid, ⟨uid, src, "S", dst, "D", true, min j 50 + 1⟩)] := by
      unfold record_forward scenState alookup
      simp [amap]
    rw [hrec]
    unfold scenState
    have e1 : min j 51 + 1 = min (j + 1) 51 := by omega
    have e2 : min j 50 + 1 = min (j + 1) 50 := by omega
    have e3 : ¬ 51 ≤ j := by omega
    have e4 : ¬ 51 ≤ j + 1 := by omega
    simp [amap, alookup, e1, e2, e3, e4]
  · have hj' : ¬ min j 51 < 50 := by omega
    simp only [hcheck, if_neg hj', decide_eq_true_eq]
    have hlook : alookup
        (amap (scenState pr se uid src dst rid t0 j).users uid
          (⟨pr, se, min j 51, t0⟩ : User)) uid =
        some ⟨pr, se, min j 51, t0⟩ := by
      unfold scenState
      simp [amap, alookup]
    rw [hlook]
    by_cases hj50 : j = 50
    · subst hj50
      have hm : min (50 : Nat) 51 = 50 := by omega
      unfold scenState
      have e1 : min (51 : Nat) 51 = 51 := by omega
      have e2 : min (51 : Nat) 50 = 50 := by omega
      have e3 : min (50 : Nat) 50 = 50 := by omega
      simp [amap, alookup, hm, e1, e2, e3]
    · have hm : min j 51 = 51 := by omega
      have h51 : (51 : Nat) ≠ 50 := by omega
      unfold scenState
      have e1 : min (j + 1) 51 = 51 := by omega
      have e2 : min (j + 1) 50 = min j 50 := by omega
      have a1 : 51 ≤ j := by omega
      have a2 : 51 ≤ j + 1 := by omega
      simp [amap, alookup, hm, h51, e1, e2, a1, a2]

theorem runDispatch_inv (pr : Bool) (se : Option Nat) (uid : Nat)
    (src dst : Int) (rid : String) (t0 : Nat) :
    ∀ (ts : List Nat) (j : Nat),
      (∀ t ∈ ts, t0 ≤ t ∧ t < t0 + 86400 ∧
        isActivePremium ⟨pr, se, 0, t0⟩ t = false) →
      runDispatch src (scenState pr se uid src dst rid t0 j) ts =
        scenState pr se uid src dst rid t0 (j + ts.length)
  | [], j, _ => by simp [runDispatch]
  | t :: ts, j, hts => by
      obtain ⟨h1, h2, hp⟩ := hts t (List.mem_cons_self _ _)
      have hp' : isActivePremium ⟨pr, se, min j 51, t0⟩ t = false := hp
      have hstep := dispatch_step pr se uid src dst rid t0 j t h1 h2 hp'
      have IH := runDispatch_inv pr se uid src dst rid t0 ts (j + 1)
        (fun t' ht' => hts t' (List.mem_cons_of_mem _ ht'))
      simp only [runDispatch, hstep, IH, List.length_cons]
      congr 1
      omega

/-- Claim C4: end-to-end run of the dispatcher for a free user's single
active rule, every relay and notification succeeding, all messages inside
one quota window: after at most 50 inbound messages every one was relayed
(`messages_forwarded` equals the message count, the counter incremented
only on a confirmed relay) and no quota notification was sent; from the
51st message on no further relay happens, `messages_forwarded` stays at
50, and exactly one quota notification was sent for the window.  The final
conjunct shows the forward counter is untouched whenever the relay call
fails, in any state. -/
theorem end_to_end_quota (pr : Bool) (se : Option Nat) (uid : Nat)
    (src dst : Int) (rid : String) (t0 : Nat) (ts : List Nat)
    (hts : ∀ t ∈ ts, t0 ≤ t ∧ t < t0 + 86400 ∧
      isActivePremium ⟨pr, se, 0, t0⟩ t = false) :
    runDispatch src (scenState pr se uid src dst rid t0 0) ts =
      scenState pr se uid src dst rid t0 ts.length ∧
    (ts.length ≤ 50 →
      (alookup (runDispatch src (scenState pr se uid src dst rid t0 0)
          ts).rules rid).map ForwardRule.messages_forwarded =
        some ts.length ∧
      (runDispatch src (scenState pr se uid src dst rid t0 0)
        ts).notifications = 0) ∧
    (51 ≤ ts.length →
      (alookup (runDispatch src (scenState pr se uid src dst rid t0 0)
          ts).rules rid).map ForwardRule.messages_forwarded = some 50 ∧
      (runDispatch src (scenState pr se uid src dst rid t0 0)
        ts).notifications = 1) ∧
    (∀ (st : DispatchState) (rid' : String) (r' : ForwardRule) (now' : Nat)
      (nOk : Bool), (handle_rule st rid' r' now' false nOk).rules = st.rules) := by
  have main := runDispatch_inv pr se uid src dst rid t0 ts 0 hts
  rw [show (0 : Nat) + ts.length = ts.length from by omega] at main
  refine ⟨main, ?_, ?_, ?_⟩
  · intro hle
    rw [main]
    unfold scenState
    have e1 : min ts.length 50 = ts.length := by omega
    have e2 : ¬ 51 ≤ ts.length := by omega
    simp [alookup, e1, e2]
  · intro hge
    rw [main]
    unfold scenState
    have e1 : min ts.length 50 = 50 := by omega
    have e2 : 51 ≤ ts.length := hge
    simp [alookup, e1, e2]
  · intro st rid' r' now' nOk
    unfold handle_rule
    dsimp only
    cases hres : (check_message_limit st.users r'.user_id now').1 with
    | true => simp [hres]
    | false =>
        simp only [hres, Bool.false_eq_true, if_false]
        cases halt : alookup (check_message_limit st.users r'.user_id
            now').2 r'.user_id with
        | none => rfl
        | some u =>
            by_cases h50 : u.daily_messages = 50
            · cases nOk with
              | false => simp [h50]
              | true => simp [h50]
            · simp [h50]

theorem end_to_end_quota_witness :
    runDispatch (-5) (scenState false none 1 (-5) (-6) "r1" 0 0)
      (List.replicate 51 10) =
      scenState false none 1 (-5) (-6) "r1" 0 51 ∧
    (alookup (runDispatch (-5) (scenState false none 1 (-5) (-6) "r1" 0 0)
        (List.replicate 51 10)).rules "r1").map
      ForwardRule.messages_forwarded = some 50 ∧
    (runDispatch (-5) (scenState false none 1 (-5) (-6) "r1" 0 0)
      (List.replicate 51 10)).notifications = 1 := by
  have h := end_to_end_quota false none 1 (-5) (-6) "r1" 0
    (List.replicate 51 10)
    (by
      intro t ht
      have : t = 10 := List.eq_of_mem_replicate ht
      subst this
      refine ⟨by omega, by omega, by decide⟩)
  exact ⟨h.1, (h.2.2.1 (by decide)).1, (h.2.2.1 (by decide)).2⟩

/-- Claim C10: in the dispatcher's denied path, when the free owner's
counter is exactly 50 and the window is live, the handler sends the one
quota notification and then bumps `daily_messages` to 51 as a suppression
flag; so after the notification the counter holds 51 — the bound
`daily_messages ≤ 50` is not an invariant — and denial at the dispatcher
level has a side effect, while the rule store (and its forward counter) is
untouched. -/
theorem dispatcher_denied_bumps_counter (st : DispatchState) (uid : Nat)
    (u : User) (rid : String) (r : ForwardRule) (src : Int) (now t0 : Nat)
    (hu : alookup st.users uid = some u)
    (hprem : u.is_premium = false)
    (hd : u.daily_messages = 50) (hl : u.last_reset = t0)
    (h1 : t0 ≤ now) (h2 : now < t0 + 86400)
    (hm : get_active_rules_by_source st.rules src = [(rid, r)])
    (hr : r.user_id = uid) :
    (forward_message_handler st src now true true).notifications =
      st.notifications + 1 ∧
    (alookup (forward_message_handler st src now true true).users uid).map
      User.daily_messages = some 51 ∧
    (forward_message_handler st src now true true).rules = st.rules := by
  obtain ⟨pr, se, dm, lr⟩ := u
  dsimp only at hprem hd hl
  subst hprem
  subst hd
  have hl2 := hl.symm
  subst hl2
  unfold forward_message_handler
  rw [hm]
  simp only [List.foldl_cons, List.foldl_nil]
  unfold handle_rule
  rw [hr]
  have hcheck : check_message_limit st.users uid now =
      (false, amap st.users uid ⟨false, se, 50, t0⟩) := by
    unfold check_message_limit
    rw [hu]
    have hw : ¬ 86400 ≤ now - t0 := by omega
    have hpr : isActivePremium ⟨false, se, 50, t0⟩ now = false := rfl
    have h50 : (50 : Nat) ≤ 50 := by omega
    simp [hw, hpr, h50]
  have hlook : alookup (amap st.users uid (⟨false, se, 50, t0⟩ : User)) uid =
      some ⟨false, se, 50, t0⟩ :=
    alookup_amap_self st.users uid _ _ hu
  simp only [hcheck, Bool.false_eq_true, if_false, hlook]
  have hlook2 : alookup (amap (amap st.users uid
      (⟨false, se, 50, t0⟩ : User)) uid (⟨false, se, 50 + 1, t0⟩ : User))
      uid = some ⟨false, se, 50 + 1, t0⟩ :=
    alookup_amap_self _ uid _ _ hlook
  simp [hlook2]

theorem dispatcher_denied_bumps_counter_witness :
    (forward_message_handler
      ⟨[(1, ⟨false, none, 50, 0⟩)], [("r1", ⟨1, -5, "S", -6, "D", true, 50⟩)], 0⟩
      (-5) 10 true true).notifications = 0 + 1 ∧
    (alookup (forward_message_handler
      ⟨[(1, ⟨false, none, 50, 0⟩)], [("r1", ⟨1, -5, "S", -6, "D", true, 50⟩)], 0⟩
      (-5) 10 true true).users 1).map User.daily_messages = some 51 ∧
    (forward_message_handler
      ⟨[(1, ⟨false, none, 50, 0⟩)], [("r1", ⟨1, -5, "S", -6, "D", true, 50⟩)], 0⟩
      (-5) 10 true true).rules = [("r1", ⟨1, -5, "S", -6, "D", true, 50⟩)] :=
  dispatcher_denied_bumps_counter
    ⟨[(1, ⟨false, none, 50, 0⟩)], [("r1", ⟨1, -5, "S", -6, "D", true, 50⟩)], 0⟩
    1 ⟨false, none, 50, 0⟩ "r1" ⟨1, -5, "S", -6, "D", true, 50⟩ (-5) 10 0
    rfl rfl rfl rfl (by omega) (by omega) (by decide) rfl

end AutoforwardBot
